import Mathlib

/-!
Verification of the `cell_census` experiment query layer
(`src/api/python/cell_census/src/cell_census/experiment_query/query.py`).

We give a shallow embedding of the query layer: Arrow tables become
association lists of named integer columns, the storage engine's axis
dataframes and sparse N-D arrays become concrete structures whose `read`
operations mirror the interface contract the query layer relies on, and
each method of `ExperimentQuery` / `AsyncExperimentQuery` / `AxisIndexer`
becomes a Lean function with explicit state passing.  Python exceptions
are modelled with `Except PyErr`.
-/

/-- Python exceptions raised by the query layer: `ValueError` (including the
spec's abstract `ValidationError` category), `NotImplementedError`, and an
opaque transient storage failure propagated unchanged from the storage
engine. -/
inductive PyErr : Type
  | valueError (msg : String)
  | notImplementedError (msg : String)
  | storageError
deriving DecidableEq, Repr

/-- Shallow embedding of a `pyarrow.Table`: an ordered list of named columns.
Cell values are modelled as integers (`soma_joinid` / `soma_dim_*` columns are
int64 in the source; the `soma_data` payload is opaque to the query layer, so
an integer carrier loses nothing the claims depend on). -/
structure Table : Type where
  cols : List (String × List Int)
deriving DecidableEq, Repr

/-- Column names of the table, in order. -/
def Table.names (t : Table) : List String := t.cols.map Prod.fst

/-- Lookup of a column by name (`tbl.column(name)`); `none` when absent. -/
def Table.col (t : Table) (n : String) : Option (List Int) := t.cols.lookup n

/-- Number of rows (length of the first column; 0 for a table with no columns). -/
def Table.numRows (t : Table) : Nat :=
  match t.cols.head? with
  | some c => c.2.length
  | none => 0

/-- Embedding of `tbl.select(column_names)`: keep exactly the requested
columns, in the requested order. -/
def Table.select (t : Table) (cs : List String) : Table :=
  ⟨cs.map (fun n => (n, (t.col n).getD []))⟩

/-- Embedding of `pa.Table.from_pylist([], schema=schema)`: a zero-row table
with the given column names. -/
def Table.fromPylistEmpty (schema : List String) : Table :=
  ⟨schema.map (fun n => (n, ([] : List Int)))⟩

/-- Embedding of `pa.concat_tables` on two tables sharing a schema. -/
def Table.concat2 (a b : Table) : Table :=
  ⟨a.cols.map (fun c => (c.1, c.2 ++ ((b.col c.1).getD [])))⟩

/-- Embedding of `pa.concat_tables` over a list of tables. -/
def Table.concatAll : List Table → Table
  | [] => ⟨[]⟩
  | t :: ts => ts.foldl Table.concat2 t

/-- Storage-side model of one axis dataframe (the soma `DataFrame` handle) as
seen through a fixed query: `rows` are the rows matching the query's
coordinates and value filter (filter evaluation belongs to the excluded
storage engine, so the model holds the already-filtered row set), aligned
with `colNames`.  `readFails` models a transient storage failure of
`read_all`, which the query layer must propagate unchanged. -/
structure AxisDF : Type where
  colNames : List String
  rows : List (List Int)
  readFails : Bool
deriving DecidableEq, Repr

/-- Values of the named column over the (filtered) rows of the dataframe. -/
def AxisDF.colValues (df : AxisDF) (n : String) : List Int :=
  match df.colNames.findIdx? (· = n) with
  | some i => df.rows.map (fun r => r.getD i 0)
  | none => []

/-- Embedding of `axis_df.read_all(ids=..., value_filter=..., column_names=query_columns)`
(query.py line 124): returns the filtered rows projected to `column_names`
(all stored columns when `none`), or a storage error. -/
def AxisDF.read_all (df : AxisDF) (column_names : Option (List String)) :
    Except PyErr Table :=
  if df.readFails then .error .storageError
  else
    let cs := column_names.getD df.colNames
    .ok ⟨cs.map (fun n => (n, df.colValues n))⟩

/-- Embedding of the `query_columns` rewrite in `_read_axis_dataframe`
(query.py lines 120-122): when the joinid cache is unset and the caller's
column list omits `soma_joinid`, the physical read prepends it. -/
def axisQueryColumns (need_joinids : Bool) (column_names : Option (List String)) :
    Option (List String) :=
  match column_names with
  | some cs =>
      if need_joinids ∧ "soma_joinid" ∉ cs then some ("soma_joinid" :: cs)
      else some cs
  | none => none

/-- Embedding of `ExperimentQuery._read_axis_dataframe` (query.py lines
106-132) for one axis: takes the current joinid cache, performs the physical
read with the possibly-rewritten column list, populates the cache from the
result's `soma_joinid` column when it was unset, and narrows the returned
table back to exactly the caller's requested columns. -/
def readAxisDataframe (cache : Option (List Int)) (df : AxisDF)
    (column_names : Option (List String)) :
    Except PyErr (Option (List Int) × Table) := do
  let need_joinids := cache.isNone
  let query_columns := axisQueryColumns need_joinids column_names
  let tbl ← df.read_all query_columns
  let cache' := if need_joinids then some ((tbl.col "soma_joinid").getD []) else cache
  let out :=
    match column_names with
    | some cs => tbl.select cs
    | none => tbl
  .ok (cache', out)

/-- The two axes of an experiment. -/
inductive Axis : Type
  | obs
  | var
deriving DecidableEq, Repr

/-- The lazily populated joinid caches of a query (`self._joinids`,
query.py lines 90-93): one optional ordered identifier sequence per axis,
`none` until first populated. -/
structure QueryState : Type where
  obsJoinids : Option (List Int)
  varJoinids : Option (List Int)
deriving DecidableEq, Repr

/-- Read the cache of one axis. -/
def QueryState.getCache (st : QueryState) : Axis → Option (List Int)
  | .obs => st.obsJoinids
  | .var => st.varJoinids

/-- Replace the cache of one axis. -/
def QueryState.setCache (st : QueryState) : Axis → Option (List Int) → QueryState
  | .obs, c => { st with obsJoinids := c }
  | .var, c => { st with varJoinids := c }

/-- Storage-side model of one sparse X layer (a soma `SparseNDArray` handle):
its `soma_type` tag, its schema column names, its stored cells as
`(soma_dim_0, soma_dim_1, soma_data)` triples, and the storage-defined
chunking granularity of `read_table`. -/
structure SparseNDArray : Type where
  soma_type : String
  schemaNames : List String
  cells : List (Int × Int × Int)
  chunkLen : Nat
deriving DecidableEq, Repr

/-- Split a list into chunks of size `max n 1`; the fuel argument is the
length of the list, which bounds the recursion. -/
def chunksOfAux {a : Type} (n : Nat) : Nat → List a → List (List a)
  | _, [] => []
  | 0, l => [l]
  | fuel + 1, l => l.take (Nat.max n 1) :: chunksOfAux n fuel (l.drop (Nat.max n 1))

/-- Split a list into storage-defined chunks. -/
def chunksOf {a : Type} (n : Nat) (l : List a) : List (List a) :=
  chunksOfAux n l.length l

/-- Embedding of `X.read_table((obs_joinids, var_joinids))` (query.py lines
174 and 178): the lazy chunk sequence of exactly the stored cells whose row
id is in the obs set and whose column id is in the var set (cross-product
filtering), chunked at storage-defined granularity. -/
def SparseNDArray.read_table (X : SparseNDArray) (obs var : List Int) :
    List Table :=
  let selected := X.cells.filter (fun c => c.1 ∈ obs ∧ c.2.1 ∈ var)
  (chunksOf X.chunkLen selected).map (fun chunk =>
    ⟨[("soma_dim_0", chunk.map (fun c => c.1)),
      ("soma_dim_1", chunk.map (fun c => c.2.1)),
      ("soma_data", chunk.map (fun c => c.2.2))]⟩)

/-- Embedding of `ExperimentQuery._fetchX` (query.py lines 161-186) given the
resolved joinid sequences: when either identifier sequence is empty it
yields the single chunk `pa.Table.from_pylist([], schema=X.schema)` and
returns; otherwise it yields the chunks of `X.read_table`.  The
`prefetch=True` path (lines 176-186) pulls the same generator through
`wrap_generator` one step ahead on the worker pool and yields the same
chunks in the same order, so the model is independent of the flag. -/
def fetchX (obs_joinids var_joinids : List Int) (X : SparseNDArray) :
    List Table :=
  if obs_joinids.length = 0 ∨ var_joinids.length = 0 then
    [Table.fromPylistEmpty X.schemaNames]
  else
    X.read_table obs_joinids var_joinids

/-- Storage-side model of the experiment handle and the fixed measurement the
query addresses: the handle's existence flag, the measurement names of the
experiment, the (query-filtered) obs and var axis dataframes, and the
measurement's X collection as a name-keyed association list (unique keys,
like the Python dict it models). -/
structure ExperimentM : Type where
  exists_ : Bool
  msNames : List String
  obsDF : AxisDF
  varDF : AxisDF
  xlayers : List (String × SparseNDArray)
deriving DecidableEq, Repr

/-- The axis dataframe handle for one axis (`self.experiment.obs` /
`self.experiment.ms[self.ms].var`). -/
def ExperimentM.axisDF (exp : ExperimentM) : Axis → AxisDF
  | .obs => exp.obsDF
  | .var => exp.varDF

/-- Embedding of `self._read_axis_dataframe(axis, axis_df, column_names=...)`
as a state transition on the query's joinid caches: the cache update happens
only when the physical read succeeds; a storage error propagates unchanged
and no state is produced. -/
def readAxisDataframeM (exp : ExperimentM) (st : QueryState) (axis : Axis)
    (column_names : Option (List String)) :
    Except PyErr (QueryState × Table) := do
  let (cache', tbl) ← readAxisDataframe (st.getCache axis) (exp.axisDF axis) column_names
  .ok (st.setCache axis cache', tbl)

/-- Embedding of `ExperimentQuery._read_axis_joinids` (query.py lines
134-137): return the cached joinids, issuing a minimal
`column_names=["soma_joinid"]` read first when the cache is unset. -/
def readAxisJoinidsM (exp : ExperimentM) (st : QueryState) (axis : Axis) :
    Except PyErr (QueryState × List Int) := do
  match st.getCache axis with
  | some j => .ok (st, j)
  | none =>
      let (st', _) ← readAxisDataframeM exp st axis (some ["soma_joinid"])
      .ok (st', (st'.getCache axis).getD [])

/-- Embedding of `ExperimentQuery.X` (query.py lines 188-209): validate the
layer name (`ValueError` when falsy or unknown, `NotImplementedError` when
not the sparse soma type), resolve both axis joinid caches, then yield the
chunks of `_fetchX`. -/
def queryX (exp : ExperimentM) (st : QueryState) (layer : String) :
    Except PyErr (QueryState × List Table) :=
  if layer = "" then .error (.valueError "Must specify X layer")
  else
    match exp.xlayers.lookup layer with
    | none => .error (.valueError "Unknown X layer")
    | some X =>
        if X.soma_type ≠ "SOMASparseNDArray" then
          .error (.notImplementedError "Dense array unsupported")
        else do
          let (st1, _) ← readAxisJoinidsM exp st .obs
          let (st2, _) ← readAxisJoinidsM exp st1 .var
          .ok (st2, fetchX ((st2.getCache .obs).getD []) ((st2.getCache .var).getD []) X)

/-- Modelled from the spec: `AxisQuery` lives in `experiment_query/axis.py`,
which is not among the provided sources.  Per spec section 3 an Axis Filter is
an immutable pair of a coordinate selection expression and an optional
value-filter string, whose default value selects every row; the coordinate
selection is opaque to the query layer, so it is modelled by a flag telling
whether it is the select-all default `(slice(None),)`. -/
structure AxisQuery : Type where
  coordsAll : Bool
  value_filter : Option String
deriving DecidableEq, Repr

/-- Full state established by `ExperimentQuery.__init__` (query.py lines
70-97): the stored per-axis filters, the unset joinid caches, and the freshly
created worker pool (modelled by its open flag). -/
structure ExperimentQueryObj : Type where
  query_obs : AxisQuery
  query_var : AxisQuery
  joinids : QueryState
  poolOpen : Bool
deriving DecidableEq, Repr

/-- Embedding of `ExperimentQuery.__init__` (query.py lines 70-97): validate
that the experiment handle resolves and the measurement is present, raising
`ValueError` otherwise before any query state (caches, worker pool) is
established; on success return the fresh state with both caches unset and
the worker pool created. -/
def ExperimentQuery_init (experiment : ExperimentM) (measurement_name : String)
    (obs_query var_query : Option AxisQuery) : Except PyErr ExperimentQueryObj :=
  if ¬ experiment.exists_ then .error (.valueError "Experiment does not exist")
  else if measurement_name ∉ experiment.msNames then
    .error (.valueError "Measurement does not exist in the experiment")
  else
    .ok { query_obs := obs_query.getD ⟨true, none⟩,
          query_var := var_query.getD ⟨true, none⟩,
          joinids := ⟨none, none⟩,
          poolOpen := true }

/-- Embedding of `ExperimentQuery.close` (query.py lines 99-104):
`self._default_threadpool.shutdown()`. -/
def ExperimentQueryObj.close (q : ExperimentQueryObj) : ExperimentQueryObj :=
  { q with poolOpen := false }

/-- Embedding of the `experiment_query` context manager (query.py lines
318-332).  The generator body is `query = ExperimentQuery(...)`,
`yield query`, `query.close()`, with no try/finally: under `@contextmanager`,
an exception raised by the with-body is thrown into the generator at the
yield point and propagates out of the generator, so the `query.close()` on
line 332 is reached only on the normal exit path.  The result carries the
body result, the number of times `close()` ran, and the final query object. -/
def experimentQueryScope {A : Type} (experiment : ExperimentM)
    (measurement_name : String) (body : ExperimentQueryObj → Except PyErr A) :
    Except PyErr A × Nat × Option ExperimentQueryObj :=
  match ExperimentQuery_init experiment measurement_name none none with
  | .error e => (.error e, 0, none)
  | .ok q =>
      match body q with
      | .error e => (.error e, 0, some q)
      | .ok a => (.ok a, 1, some q.close)

/-- A Python value passed where an X layer name is expected: either an actual
string or some non-string value (whose content is irrelevant to the
`isinstance(_xname, str)` check in `read`). -/
inductive XNameArg : Type
  | str (s : String)
  | nonString
deriving DecidableEq, Repr

/-- The string carried by a name argument (dummy for non-strings; only used
after validation has established the argument is a nonempty string). -/
def XNameArg.getStr : XNameArg → String
  | .str s => s
  | .nonString => ""

/-- Embedding of one iteration of the validation loop in
`ExperimentQuery.read` (query.py lines 227-234): `ValueError` for a
non-string or empty name and for a name absent from the X collection,
`NotImplementedError` for a layer whose soma type is not the sparse one. -/
def validateXName (xlayers : List (String × SparseNDArray)) (x : XNameArg) :
    Except PyErr Unit :=
  match x with
  | .nonString => .error (.valueError "X layer names must be specified as a string.")
  | .str s =>
      if s = "" then .error (.valueError "X layer names must be specified as a string.")
      else
        match xlayers.lookup s with
        | none => .error (.valueError "Unknown X layer name")
        | some X =>
            if X.soma_type ≠ "SOMASparseNDArray" then
              .error (.notImplementedError "Dense array unsupported")
            else .ok ()

/-- Embedding of the whole validation loop over `all_X_names = [X_name] + X_layers`
(query.py lines 226-234), which runs before any matrix or axis data is read. -/
def validateXNames (xlayers : List (String × SparseNDArray)) :
    List XNameArg → Except PyErr Unit
  | [] => .ok ()
  | x :: xs => do
      validateXName xlayers x
      validateXNames xlayers xs

/-- Embedding of the `column_names` typed dict argument of `read`
(`AxisColumnNames`): each axis key may be absent (outer `none`), present with
value `None` meaning all columns (inner `none`), or present with an explicit
column list. -/
structure AxisColumnNames : Type where
  obs : Option (Option (List String))
  var : Option (Option (List String))
deriving DecidableEq, Repr

/-- Embedding of the `column_names` normalization in `read` (query.py lines
236-241): a `None` mapping becomes one with both keys mapped to `None`, and
a missing `obs` or `var` key is inserted, mapped to `None`, in the caller's
mapping object itself. -/
def normalizeColumnNames (column_names : Option AxisColumnNames) : AxisColumnNames :=
  let cn := column_names.getD ⟨none, none⟩
  ⟨some (cn.obs.getD none), some (cn.var.getD none)⟩

/-- Embedding of `pandas.Index.get_indexer` over a unique index: each
coordinate maps to the position of its match in the index, or to the sentinel
`-1` when absent.  (pandas requires a unique index for `get_indexer`; the
joinid sequences it is built from are unique.) -/
def pdIndexGetIndexer (index : List Int) (coords : List Int) : List Int :=
  coords.map (fun c =>
    match index.findIdx? (· = c) with
    | some i => (i : Int)
    | none => -1)

/-- Lazily built per-axis lookup state of `AxisIndexer` (query.py lines
431-446): `self._obs_index` / `self._var_index`, `none` until first use. -/
structure AxisIndexer : Type where
  obs_index_cache : Option (List Int)
  var_index_cache : Option (List Int)
deriving DecidableEq, Repr

/-- Embedding of `AxisIndexer.obs_index` (query.py lines 448-453) given the
query's resolved obs joinids: build `pd.Index(data=obs_joinids)` on first
use, cache it, and return `get_indexer(coords)`. -/
def AxisIndexer.obs_index (ix : AxisIndexer) (obs_joinids : List Int)
    (coords : List Int) : AxisIndexer × List Int :=
  let index := ix.obs_index_cache.getD obs_joinids
  ({ ix with obs_index_cache := some index }, pdIndexGetIndexer index coords)

/-- Embedding of `AxisIndexer.var_index` (query.py lines 455-460), symmetric
to `obs_index`. -/
def AxisIndexer.var_index (ix : AxisIndexer) (var_joinids : List Int)
    (coords : List Int) : AxisIndexer × List Int :=
  let index := ix.var_index_cache.getD var_joinids
  ({ ix with var_index_cache := some index }, pdIndexGetIndexer index coords)

/-- Embedding of `ExperimentQuery._rewrite_X_for_positional_indexing`
(query.py lines 281-309) on one matrix table: the two joinid coordinate
columns are rewritten through the indexer into dense positions and renamed
to the positional-axis names, the data column is kept. -/
def rewriteXForPositionalIndexing (obs_joinids var_joinids : List Int)
    (t : Table) : Table :=
  ⟨[("_dim_0", pdIndexGetIndexer obs_joinids ((t.col "soma_dim_0").getD [])),
    ("_dim_1", pdIndexGetIndexer var_joinids ((t.col "soma_dim_1").getD [])),
    ("soma_data", (t.col "soma_data").getD [])]⟩

/-- Embedding of the rewrite loop over the `X_tables` dict (query.py lines
298-309). -/
def rewriteXTables (obs_joinids var_joinids : List Int)
    (ts : List (String × Table)) : List (String × Table) :=
  ts.map (fun p => (p.1, rewriteXForPositionalIndexing obs_joinids var_joinids p.2))

/-- Fallback sparse array for association-list lookups that validation has
already proved cannot miss. -/
def dummySparseNDArray : SparseNDArray :=
  ⟨"SOMASparseNDArray", ["soma_dim_0", "soma_dim_1", "soma_data"], [], 0⟩

/-- The record returned by `ExperimentQuery.read`
(`ExperimentQueryReadArrowResult`): the obs and var axis tables, the primary
X table, and the extra layer tables when extra layers were requested. -/
structure ReadResult : Type where
  obs : Table
  var : Table
  X : Table
  X_layers : Option (List (String × Table))
deriving DecidableEq, Repr

/-- Everything `ExperimentQuery.read` leaves behind: the updated joinid
caches, the caller's `column_names` mapping as it stands after the call (the
source inserts missing keys into the caller's dict in place), and the result
record. -/
structure ReadOut : Type where
  state : QueryState
  column_names : AxisColumnNames
  result : ReadResult
deriving DecidableEq, Repr

/-- Embedding of `ExperimentQuery.read` (query.py lines 211-266): validate
every requested X name, normalize the caller's `column_names` mapping
(inserting missing keys into it), read both axis dataframes (in the source
the two reads run on the worker pool in parallel; they touch disjoint caches,
so sequential state passing is equivalent), fetch every requested X layer as
the concatenation of its prefetched chunk stream, optionally rewrite the
matrix tables to positional indexing, and pop the primary layer out of the
layer dict (the dict is keyed by name, so names are unique). -/
def readFull (exp : ExperimentM) (st : QueryState) (X_name : XNameArg)
    (use_position_indexing : Bool) (column_names : Option AxisColumnNames)
    (X_layers : Option (List XNameArg)) : Except PyErr ReadOut := do
  let X_layersL := X_layers.getD []
  let all_X_names := X_name :: X_layersL
  validateXNames exp.xlayers all_X_names
  let cn := normalizeColumnNames column_names
  let (st1, obs_table) ← readAxisDataframeM exp st .obs (cn.obs.getD none)
  let (st2, var_table) ← readAxisDataframeM exp st1 .var (cn.var.getD none)
  let obsIds := (st2.getCache .obs).getD []
  let varIds := (st2.getCache .var).getD []
  let X_tables := all_X_names.map (fun n =>
    (n.getStr,
     Table.concatAll (fetchX obsIds varIds ((exp.xlayers.lookup n.getStr).getD dummySparseNDArray))))
  let X_tables :=
    if use_position_indexing then rewriteXTables obsIds varIds X_tables else X_tables
  let Xprim := (X_tables.lookup X_name.getStr).getD (Table.fromPylistEmpty [])
  let rest := X_tables.filter (fun p => p.1 ≠ X_name.getStr)
  .ok ⟨st2, cn,
       ⟨obs_table, var_table, Xprim,
        if X_layersL.length > 0 then some rest else none⟩⟩

/-- Embedding of the closure produced by `wrap_generator` (query.py lines
394-411), with the remaining generator items as explicit state: one call
advances the generator one step and returns `(next_value, False)` when a
value is produced and `(None, True)` at exhaustion. -/
def wrapGeneratorNext {T : Type} : List T → (Option T × Bool) × List T
  | [] => ((none, true), [])
  | x :: xs => ((some x, false), xs)

/-- Embedding of the driving loop of `async_iter` (query.py lines 381-391):
repeatedly call the wrapped generator, stop at `done`, assert the produced
value is present, and yield it.  The fuel argument bounds the recursion; the
caller passes one more than the generator length, so the loop always reaches
the `done` signal first. -/
def asyncIterDrive {T : Type} : Nat → List T → List T
  | 0, _ => []
  | fuel + 1, gen =>
      match wrapGeneratorNext gen with
      | ((_, true), _) => []
      | ((value, false), rest) =>
          match value with
          | some v => v :: asyncIterDrive fuel rest
          | none => []

/-- Embedding of `async_iter` (query.py lines 381-391): the sequence of
values the async iterator yields. -/
def async_iter {T : Type} (gen : List T) : List T :=
  asyncIterDrive (gen.length + 1) gen

/-- Embedding of `AsyncExperimentQuery.X` (query.py lines 372-375): the
synchronous chunk stream of `ExperimentQuery.X`, driven through `async_iter`. -/
def AsyncExperimentQuery_X (exp : ExperimentM) (st : QueryState) (layer : String) :
    Except PyErr (QueryState × List Table) :=
  (queryX exp st layer).map (fun p => (p.1, async_iter p.2))

/-- Discriminator for the `ValueError` constructor. -/
def PyErr.isValueError : PyErr → Bool
  | .valueError _ => true
  | _ => false

/-- Concrete obs axis dataframe: joinids 10, 20, 30 with one annotation
column (spec section 8, scenario 7). -/
def exObsDF : AxisDF :=
  ⟨["soma_joinid", "tissue"], [[10, 1], [20, 2], [30, 3]], false⟩

/-- Concrete var axis dataframe: joinids 1, 2. -/
def exVarDF : AxisDF :=
  ⟨["soma_joinid"], [[1], [2]], false⟩

/-- Concrete sparse X layer holding cells (10,1,5), (20,2,7), (99,1,1). -/
def exX : SparseNDArray :=
  ⟨"SOMASparseNDArray", ["soma_dim_0", "soma_dim_1", "soma_data"],
   [(10, 1, 5), (20, 2, 7), (99, 1, 1)], 10⟩

/-- Concrete dense X layer (unsupported representation type). -/
def exDense : SparseNDArray :=
  ⟨"SOMADenseNDArray", ["soma_dim_0", "soma_dim_1", "soma_data"], [], 10⟩

/-- Concrete experiment with one measurement, the two axis dataframes above,
a sparse layer named `data` and a dense layer named `dense`. -/
def exExperiment : ExperimentM :=
  ⟨true, ["RNA"], exObsDF, exVarDF, [("data", exX), ("dense", exDense)]⟩

/-- Variant of the experiment whose obs filter selects zero rows. -/
def exExperimentEmptyObs : ExperimentM :=
  ⟨true, ["RNA"], ⟨["soma_joinid", "tissue"], [], false⟩, exVarDF, [("data", exX)]⟩

/-- Variant of the experiment whose obs dataframe read fails transiently. -/
def exExperimentObsReadFails : ExperimentM :=
  ⟨true, ["RNA"], ⟨["soma_joinid", "tissue"], [[10, 1], [20, 2], [30, 3]], true⟩,
   exVarDF, [("data", exX)]⟩

theorem lookup_map_fn {β : Type} (f : String → β) (cs : List String) (m : String) :
    (cs.map (fun n => (n, f n))).lookup m = if m ∈ cs then some (f m) else none := by
  induction cs with
  | nil => simp
  | cons a t ih =>
      by_cases h : m = a
      · subst h
        simp [List.lookup]
      · simp only [List.map_cons, List.lookup, List.mem_cons]
        rw [ih]
        have hba : (m == a) = false := beq_false_of_ne h
        simp [hba, h]

theorem colValues_of_rows_nil (df : AxisDF) (h : df.rows = []) (n : String) :
    df.colValues n = [] := by
  unfold AxisDF.colValues
  rw [h]
  cases df.colNames.findIdx? (· = n) <;> simp

theorem numRows_fromPylistEmpty (schema : List String) :
    (Table.fromPylistEmpty schema).numRows = 0 := by
  cases schema <;> simp [Table.fromPylistEmpty, Table.numRows]

theorem setCache_getCache_self (st : QueryState) (axis : Axis) :
    st.setCache axis (st.getCache axis) = st := by
  cases axis <;> rfl

theorem asyncIterDrive_id {T : Type} (fuel : Nat) (g : List T)
    (h : g.length < fuel) : asyncIterDrive fuel g = g := by
  induction fuel generalizing g with
  | zero => omega
  | succ n ih =>
      cases g with
      | nil => rfl
      | cons x xs =>
          simp only [asyncIterDrive, wrapGeneratorNext]
          rw [ih xs (by simpa using Nat.lt_of_succ_lt_succ h)]

theorem async_iter_id {T : Type} (g : List T) : async_iter g = g :=
  asyncIterDrive_id _ _ (Nat.lt_succ_self _)

theorem findIdx?_getElem_of_nodup (l : List Int) (hnd : l.Nodup) (i : Nat)
    (hi : i < l.length) : l.findIdx? (· = l[i]) = some i := by
  rw [List.findIdx?_eq_some_iff_getElem]
  refine ⟨hi, by simp, ?_⟩
  intro j hji
  have hj : j < l.length := Nat.lt_trans hji hi
  simp only [decide_eq_true_eq, Bool.not_eq_true, decide_eq_false_iff_not]
  intro hEq
  have := hnd.getElem_inj_iff.mp hEq
  omega

theorem findIdx?_eq_none_of_not_mem (l : List Int) (c : Int) (h : c ∉ l) :
    l.findIdx? (· = c) = none := by
  rw [List.findIdx?_eq_none_iff]
  intro x hx
  simp only [decide_eq_false_iff_not]
  intro hEq
  exact h (hEq ▸ hx)

theorem pdIndexGetIndexer_length (index coords : List Int) :
    (pdIndexGetIndexer index coords).length = coords.length := by
  simp [pdIndexGetIndexer]

theorem pdIndexGetIndexer_getElem? (index coords : List Int) (i : Nat) :
    (pdIndexGetIndexer index coords)[i]? =
      coords[i]?.map (fun c =>
        match index.findIdx? (· = c) with
        | some k => (k : Int)
        | none => -1) := by
  simp [pdIndexGetIndexer]

theorem pdIndexGetIndexer_self_getElem? (ids : List Int) (hnd : ids.Nodup)
    (i : Nat) (hi : i < ids.length) :
    (pdIndexGetIndexer ids ids)[i]? = some ((i : Nat) : Int) := by
  rw [pdIndexGetIndexer_getElem?, List.getElem?_eq_getElem hi]
  simp only [Option.map_some']
  rw [findIdx?_getElem_of_nodup ids hnd i hi]

/-- C4: for every coordinate array passed to the indexer, the result of
`AxisIndexer.obs_index` has the same length and order as the input; every
coordinate equal to the j-th element of the cached identifier sequence maps
to position j (so the cached sequence itself maps to 0..n-1 in order); every
coordinate absent from the cached sequence maps to the sentinel -1 without
raising; duplicate input coordinates map to identical output positions; and
`AxisIndexer.var_index` computes the same mapping on its axis. -/
theorem axisIndexer_index_spec (ids coords : List Int) (hnd : ids.Nodup) :
    (AxisIndexer.obs_index ⟨none, none⟩ ids coords).2.length = coords.length ∧
    (∀ (i j : Nat) (hj : j < ids.length), coords[i]? = some ids[j] →
        (AxisIndexer.obs_index ⟨none, none⟩ ids coords).2[i]? = some ((j : Nat) : Int)) ∧
    (∀ (j : Nat), j < ids.length →
        (AxisIndexer.obs_index ⟨none, none⟩ ids ids).2[j]? = some ((j : Nat) : Int)) ∧
    (∀ (i : Nat) (c : Int), coords[i]? = some c → c ∉ ids →
        (AxisIndexer.obs_index ⟨none, none⟩ ids coords).2[i]? = some (-1)) ∧
    (∀ (i k : Nat), coords[i]? = coords[k]? →
        (AxisIndexer.obs_index ⟨none, none⟩ ids coords).2[i]? =
          (AxisIndexer.obs_index ⟨none, none⟩ ids coords).2[k]?) ∧
    (AxisIndexer.var_index ⟨none, none⟩ ids coords).2 =
      (AxisIndexer.obs_index ⟨none, none⟩ ids coords).2 := by
  have hout : (AxisIndexer.obs_index ⟨none, none⟩ ids coords).2 =
      pdIndexGetIndexer ids coords := rfl
  refine ⟨?_, ?_, ?_, ?_, ?_, rfl⟩
  · rw [hout, pdIndexGetIndexer_length]
  · intro i j hj hcoord
    rw [hout, pdIndexGetIndexer_getElem?, hcoord]
    simp only [Option.map_some']
    rw [findIdx?_getElem_of_nodup ids hnd j hj]
  · intro j hj
    exact pdIndexGetIndexer_self_getElem? ids hnd j hj
  · intro i c hcoord hmem
    rw [hout, pdIndexGetIndexer_getElem?, hcoord]
    simp only [Option.map_some']
    rw [findIdx?_eq_none_of_not_mem ids c hmem]
  · intro i k hik
    rw [hout, pdIndexGetIndexer_getElem?, pdIndexGetIndexer_getElem?, hik]

/-- Witness for C4 at the concrete cached sequence [10, 20, 30] and the
coordinate array [20, 99, 20] (a duplicate and an absent coordinate). -/
theorem axisIndexer_index_spec_witness :
    ([10, 20, 30] : List Int).Nodup ∧
    (AxisIndexer.obs_index ⟨none, none⟩ [10, 20, 30] [20, 99, 20]).2 = [1, -1, 1] ∧
    (AxisIndexer.obs_index ⟨none, none⟩ [10, 20, 30] [20, 99, 20]).2.length =
      ([20, 99, 20] : List Int).length :=
  ⟨by decide, by decide, (axisIndexer_index_spec [10, 20, 30] [20, 99, 20] (by decide)).1⟩

/-- C9: for the same query state and matrix layer, the async facade's chunked
matrix output (`AsyncExperimentQuery.X`) yields the same chunks in the same
order as the synchronous `ExperimentQuery.X`, so their concatenations are
identical tables; and the `wrap_generator` end-of-sequence signal is a
`(value, done)` pair in which `done = true` comes only with `value = none`
(exhaustion), distinct from any legitimately yielded value, which is carried
with `done = false`. -/
theorem asyncX_eq_syncX (exp : ExperimentM) (st : QueryState) (layer : String)
    (t : Table) (ts : List Table) :
    AsyncExperimentQuery_X exp st layer = queryX exp st layer ∧
    (AsyncExperimentQuery_X exp st layer).map (fun p => Table.concatAll p.2) =
      (queryX exp st layer).map (fun p => Table.concatAll p.2) ∧
    wrapGeneratorNext ([] : List Table) = ((none, true), []) ∧
    wrapGeneratorNext (t :: ts) = ((some t, false), ts) := by
  have h : AsyncExperimentQuery_X exp st layer = queryX exp st layer := by
    unfold AsyncExperimentQuery_X
    cases hq : queryX exp st layer with
    | error e => rfl
    | ok p =>
        simp only [Except.map]
        rw [async_iter_id]
  exact ⟨h, by rw [h], rfl, rfl⟩

/-- C2: the claim that `experiment_query` calls `close()` exactly once on
every exit path is violated by the code: the generator body of the context
manager has no try/finally, so when the with-body raises, the exception
propagates out of the generator at the yield point and `query.close()` on
line 332 is never executed, leaving the worker pool open.  On the normal
exit path `close()` does run exactly once and releases the pool. -/
theorem experimentQueryScope_close_skipped_on_exception :
    (experimentQueryScope (A := Unit) exExperiment "RNA"
        (fun _ => .error (.valueError "body failure"))).2.1 = 0 ∧
    (experimentQueryScope (A := Unit) exExperiment "RNA"
        (fun _ => .error (.valueError "body failure"))).2.2 =
      some ⟨⟨true, none⟩, ⟨true, none⟩, ⟨none, none⟩, true⟩ ∧
    (experimentQueryScope (A := Unit) exExperiment "RNA"
        (fun _ => .ok ())).2.1 = 1 ∧
    (experimentQueryScope (A := Unit) exExperiment "RNA"
        (fun _ => .ok ())).2.2 =
      some ⟨⟨true, none⟩, ⟨true, none⟩, ⟨none, none⟩, false⟩ :=
  ⟨rfl, rfl, rfl, rfl⟩

/-- C8: construction of a query (`ExperimentQuery.__init__`) fails with the
validation error (`ValueError`, the realization of the spec's
`ValidationError` category) when the experiment handle does not resolve or
the named measurement is absent, synchronously at the failing check and
before any query state is established; only on the successful path is the
query state (unset joinid caches, fresh worker pool) created. -/
theorem experimentQuery_init_validation (experiment : ExperimentM)
    (name : String) (oq vq : Option AxisQuery) :
    (experiment.exists_ = false →
        ExperimentQuery_init experiment name oq vq =
          .error (.valueError "Experiment does not exist")) ∧
    (experiment.exists_ = true → name ∉ experiment.msNames →
        ExperimentQuery_init experiment name oq vq =
          .error (.valueError "Measurement does not exist in the experiment")) ∧
    (experiment.exists_ = true → name ∈ experiment.msNames →
        ExperimentQuery_init experiment name oq vq =
          .ok ⟨oq.getD ⟨true, none⟩, vq.getD ⟨true, none⟩, ⟨none, none⟩, true⟩) := by
  refine ⟨?_, ?_, ?_⟩
  · intro h
    simp [ExperimentQuery_init, h]
  · intro h hmem
    simp [ExperimentQuery_init, h, hmem]
  · intro h hmem
    simp [ExperimentQuery_init, h, hmem]

/-- Witness for C8: a nonexistent experiment handle fails construction, and
an existing experiment with the named measurement succeeds with fresh state. -/
theorem experimentQuery_init_validation_witness :
    ((⟨false, ["RNA"], exObsDF, exVarDF, []⟩ : ExperimentM).exists_ = false ∧
      ExperimentQuery_init ⟨false, ["RNA"], exObsDF, exVarDF, []⟩ "RNA" none none =
        .error (.valueError "Experiment does not exist")) ∧
    (exExperiment.exists_ = true ∧ "RNA" ∈ exExperiment.msNames ∧
      ExperimentQuery_init exExperiment "RNA" none none =
        .ok ⟨⟨true, none⟩, ⟨true, none⟩, ⟨none, none⟩, true⟩) :=
  ⟨⟨rfl, (experimentQuery_init_validation ⟨false, ["RNA"], exObsDF, exVarDF, []⟩
      "RNA" none none).1 rfl⟩,
   ⟨rfl, by decide,
    (experimentQuery_init_validation exExperiment "RNA" none none).2.2 rfl (by decide)⟩⟩

theorem table_select_names (t : Table) (cs : List String) :
    (t.select cs).names = cs := by
  simp only [Table.select, Table.names, List.map_map]
  exact List.map_id'' (fun x => rfl) cs

/-- C5: an axis read issued while the joinid cache is unset and with a
requested column list that excludes `soma_joinid` rewrites the physical
storage read to prepend the joinid column, populates the cache from the
resulting joinid column, and narrows the returned table to exactly the
requested columns, dropping the joinid column from the output. -/
theorem readAxisDataframe_prepend_populate_narrow (df : AxisDF) (cs : List String)
    (hs : "soma_joinid" ∉ cs) (hf : df.readFails = false) :
    axisQueryColumns true (some cs) = some ("soma_joinid" :: cs) ∧
    readAxisDataframe none df (some cs) =
      .ok (some (df.colValues "soma_joinid"), ⟨cs.map (fun n => (n, df.colValues n))⟩) ∧
    (⟨cs.map (fun n => (n, df.colValues n))⟩ : Table).names = cs ∧
    "soma_joinid" ∉ (⟨cs.map (fun n => (n, df.colValues n))⟩ : Table).names := by
  have hq : axisQueryColumns true (some cs) = some ("soma_joinid" :: cs) := by
    simp [axisQueryColumns, hs]
  have hnames : (⟨cs.map (fun n => (n, df.colValues n))⟩ : Table).names = cs := by
    simp only [Table.names, List.map_map]
    exact List.map_id'' (fun x => rfl) cs
  refine ⟨hq, ?_, hnames, by rw [hnames]; exact hs⟩
  have hsel : (⟨("soma_joinid" :: cs).map (fun n => (n, df.colValues n))⟩ : Table).select cs =
      ⟨cs.map (fun n => (n, df.colValues n))⟩ := by
    unfold Table.select
    congr 1
    apply List.map_congr_left
    intro n hn
    have : (⟨("soma_joinid" :: cs).map (fun m => (m, df.colValues m))⟩ : Table).col n =
        some (df.colValues n) := by
      unfold Table.col
      rw [lookup_map_fn]
      simp [hn]
    rw [this]
    rfl
  have hcache : (⟨("soma_joinid" :: cs).map (fun n => (n, df.colValues n))⟩ : Table).col
      "soma_joinid" = some (df.colValues "soma_joinid") := by
    unfold Table.col
    rw [lookup_map_fn]
    simp
  unfold readAxisDataframe
  simp only [Option.isNone_none, hq, AxisDF.read_all, hf, Bool.false_eq_true, if_false,
    if_true, bind, Except.bind, hcache, Option.getD_some]
  rw [hsel]

/-- Witness for C5 at the concrete obs dataframe (joinid column plus a
`tissue` column) and the requested column list ["tissue"]. -/
theorem readAxisDataframe_prepend_populate_narrow_witness :
    ("soma_joinid" ∉ (["tissue"] : List String)) ∧ exObsDF.readFails = false ∧
    readAxisDataframe none exObsDF (some ["tissue"]) =
      .ok (some [10, 20, 30], ⟨[("tissue", [1, 2, 3])]⟩) :=
  ⟨by decide, rfl, by
    have h := (readAxisDataframe_prepend_populate_narrow exObsDF ["tissue"]
      (by decide) rfl).2.1
    rw [h]
    rfl⟩

theorem getCache_setCache (st : QueryState) (axis : Axis) (c : Option (List Int)) :
    (st.setCache axis c).getCache axis = c := by
  cases axis <;> rfl

theorem readAxisDataframe_eq (cache : Option (List Int)) (df : AxisDF)
    (cols : Option (List String)) :
    readAxisDataframe cache df cols =
      match df.read_all (axisQueryColumns cache.isNone cols) with
      | .error e => .error e
      | .ok tbl =>
          .ok ((if cache.isNone then some ((tbl.col "soma_joinid").getD []) else cache),
               (match cols with | some cs => tbl.select cs | none => tbl)) := by
  unfold readAxisDataframe
  dsimp only
  cases hr : df.read_all (axisQueryColumns cache.isNone cols) <;> rfl

theorem soma_joinid_mem_queryColumns (df : AxisDF) (cols : Option (List String))
    (hc : "soma_joinid" ∈ df.colNames) :
    "soma_joinid" ∈ (axisQueryColumns true cols).getD df.colNames := by
  cases cols with
  | none => simpa [axisQueryColumns] using hc
  | some cs => by_cases h : "soma_joinid" ∈ cs <;> simp [axisQueryColumns, h]

/-- C6: each axis's joinid cache is written at most once: once populated it
is never reassigned (a later axis read returns the query state unchanged),
so `obs_joinids` / `var_joinids` return the same cached sequence on every
subsequent call regardless of which columns the triggering read requested;
a failed populating read propagates the storage error with no new state, so
the cache remains unset; and a later attempt with working storage retries
cleanly, populating the cache with the dataframe's joinid column whatever
columns the triggering read requested. -/
theorem joinid_cache_write_once (exp : ExperimentM) (st : QueryState) (axis : Axis)
    (cols : Option (List String)) (j : List Int) :
    (st.getCache axis = some j →
        ∀ st2 t, readAxisDataframeM exp st axis cols = .ok (st2, t) → st2 = st) ∧
    (st.getCache axis = some j → readAxisJoinidsM exp st axis = .ok (st, j)) ∧
    ((exp.axisDF axis).readFails = true →
        readAxisDataframeM exp st axis cols = .error .storageError) ∧
    (st.getCache axis = none → (exp.axisDF axis).readFails = false →
        "soma_joinid" ∈ (exp.axisDF axis).colNames →
        (readAxisDataframeM exp st axis cols).map (fun p => p.1.getCache axis) =
          .ok (some ((exp.axisDF axis).colValues "soma_joinid"))) := by
  refine ⟨?_, ?_, ?_, ?_⟩
  · intro h st2 t hok
    unfold readAxisDataframeM at hok
    rw [readAxisDataframe_eq, h] at hok
    simp only [Option.isNone_some, Bool.false_eq_true, if_false] at hok
    cases hr : (exp.axisDF axis).read_all (axisQueryColumns false cols) with
    | error e =>
        rw [hr] at hok
        simp [bind, Except.bind] at hok
    | ok tbl =>
        rw [hr] at hok
        simp only [bind, Except.bind, Except.ok.injEq, Prod.mk.injEq] at hok
        rw [← hok.1, ← h, setCache_getCache_self]
  · intro h
    unfold readAxisJoinidsM
    rw [h]
  · intro h
    unfold readAxisDataframeM
    rw [readAxisDataframe_eq]
    have hra : (exp.axisDF axis).read_all
        (axisQueryColumns (st.getCache axis).isNone cols) = .error .storageError := by
      simp [AxisDF.read_all, h]
    rw [hra]
    rfl
  · intro h0 hf hc
    unfold readAxisDataframeM
    rw [readAxisDataframe_eq, h0]
    simp only [Option.isNone_none]
    have hra : (exp.axisDF axis).read_all (axisQueryColumns true cols) =
        .ok ⟨((axisQueryColumns true cols).getD (exp.axisDF axis).colNames).map
              (fun n => (n, (exp.axisDF axis).colValues n))⟩ := by
      simp [AxisDF.read_all, hf]
    rw [hra]
    have hcol : (⟨((axisQueryColumns true cols).getD (exp.axisDF axis).colNames).map
        (fun n => (n, (exp.axisDF axis).colValues n))⟩ : Table).col "soma_joinid" =
          some ((exp.axisDF axis).colValues "soma_joinid") := by
      unfold Table.col
      rw [lookup_map_fn]
      simp [soma_joinid_mem_queryColumns (exp.axisDF axis) cols hc]
    simp only [bind, Except.bind, if_true, hcol, Option.getD_some, Except.map,
      getCache_setCache]

/-- Witness for C6: with the cache already populated with [10, 20, 30], an
obs read leaves the state unchanged and `obs_joinids` returns the cached
sequence; with an unset cache, a transiently failing obs read propagates the
storage error; and the retry against working storage populates the cache. -/
theorem joinid_cache_write_once_witness :
    ((⟨some [10, 20, 30], none⟩ : QueryState).getCache .obs = some [10, 20, 30] ∧
      readAxisJoinidsM exExperiment ⟨some [10, 20, 30], none⟩ .obs =
        .ok (⟨some [10, 20, 30], none⟩, [10, 20, 30])) ∧
    ((exExperimentObsReadFails.axisDF .obs).readFails = true ∧
      readAxisDataframeM exExperimentObsReadFails ⟨none, none⟩ .obs (some ["tissue"]) =
        .error .storageError) ∧
    ((readAxisDataframeM exExperiment ⟨none, none⟩ .obs (some ["tissue"])).map
        (fun p => p.1.getCache .obs) = .ok (some [10, 20, 30])) :=
  ⟨⟨rfl, (joinid_cache_write_once exExperiment ⟨some [10, 20, 30], none⟩ .obs
      (some ["tissue"]) [10, 20, 30]).2.1 rfl⟩,
   ⟨rfl, (joinid_cache_write_once exExperimentObsReadFails ⟨none, none⟩ .obs
      (some ["tissue"]) []).2.2.1 rfl⟩,
   by
    have h := (joinid_cache_write_once exExperiment ⟨none, none⟩ .obs
      (some ["tissue"]) []).2.2.2 rfl rfl (by decide)
    rw [h]
    rfl⟩

/-- C7 counterexample: requesting the dense layer of the concrete experiment
makes `read` fail with `NotImplementedError("Dense array unsupported")`,
which is not a `ValueError`, refuting the claim that every invalid matrix
name (including a non-sparse matrix) raises `ValueError`. -/
theorem readFull_dense_raises_notImplementedError :
    readFull exExperiment ⟨none, none⟩ (.str "dense") false none none =
      .error (.notImplementedError "Dense array unsupported") ∧
    (PyErr.notImplementedError "Dense array unsupported").isValueError = false :=
  ⟨rfl, rfl⟩

/-- C7 (amended): `read` and `X` fail before any matrix data is read, with
`ValueError` for a non-string or empty matrix name and for a name unknown in
the measurement's X collection, and with `NotImplementedError` (not
`ValueError`) for a matrix that is not of the supported sparse
representation type; `read` propagates exactly the validation error whenever
validation fails, before any axis or matrix data is touched. -/
theorem read_X_validation_spec (xlayers : List (String × SparseNDArray))
    (exp : ExperimentM) (st : QueryState) (layer s : String) :
    (validateXName xlayers .nonString =
        .error (.valueError "X layer names must be specified as a string.")) ∧
    (validateXName xlayers (.str "") =
        .error (.valueError "X layer names must be specified as a string.")) ∧
    (s ≠ "" → xlayers.lookup s = none →
        validateXName xlayers (.str s) = .error (.valueError "Unknown X layer name")) ∧
    (∀ X, s ≠ "" → xlayers.lookup s = some X → X.soma_type ≠ "SOMASparseNDArray" →
        validateXName xlayers (.str s) =
          .error (.notImplementedError "Dense array unsupported")) ∧
    (∀ (xn : XNameArg) (upi : Bool) (cn : Option AxisColumnNames)
        (xl : Option (List XNameArg)) (e : PyErr),
        validateXNames exp.xlayers (xn :: xl.getD []) = .error e →
        readFull exp st xn upi cn xl = .error e) ∧
    (queryX exp st "" = .error (.valueError "Must specify X layer")) ∧
    (layer ≠ "" → exp.xlayers.lookup layer = none →
        queryX exp st layer = .error (.valueError "Unknown X layer")) ∧
    (∀ X, layer ≠ "" → exp.xlayers.lookup layer = some X →
        X.soma_type ≠ "SOMASparseNDArray" →
        queryX exp st layer = .error (.notImplementedError "Dense array unsupported")) := by
  refine ⟨rfl, rfl, ?_, ?_, ?_, ?_, ?_, ?_⟩
  · intro h1 h2
    simp [validateXName, h1, h2]
  · intro X h1 h2 h3
    simp [validateXName, h1, h2, h3]
  · intro xn upi cn xl e hv
    unfold readFull
    dsimp only
    rw [hv]
    rfl
  · rfl
  · intro h1 h2
    simp [queryX, h1, h2]
  · intro X h1 h2 h3
    simp [queryX, h1, h2, h3]

/-- Witness for C7 at concrete inputs: an unknown layer name raises
`ValueError`, the dense layer raises `NotImplementedError` from `X`, and
`read` with a non-string name propagates the validation `ValueError`. -/
theorem read_X_validation_spec_witness :
    validateXName exExperiment.xlayers (.str "nope") =
      .error (.valueError "Unknown X layer name") ∧
    queryX exExperiment ⟨none, none⟩ "dense" =
      .error (.notImplementedError "Dense array unsupported") ∧
    readFull exExperiment ⟨none, none⟩ .nonString false none none =
      .error (.valueError "X layer names must be specified as a string.") :=
  ⟨(read_X_validation_spec exExperiment.xlayers exExperiment ⟨none, none⟩
      "dense" "nope").2.2.1 (by decide) rfl,
   (read_X_validation_spec exExperiment.xlayers exExperiment ⟨none, none⟩
      "dense" "nope").2.2.2.2.2.2.2 exDense (by decide) rfl (by decide),
   (read_X_validation_spec exExperiment.xlayers exExperiment ⟨none, none⟩
      "dense" "nope").2.2.2.2.1 .nonString false none none
      (.valueError "X layer names must be specified as a string.") rfl⟩

/-- C10: a `column_names` mapping that omits the obs or var key is treated
identically to one that maps that axis to `None` (all columns), and the
caller's mapping object is mutated in place: after the call it carries the
missing keys, mapped to `None` (the `column_names` field of the result is
the caller's dict as the call leaves it). -/
theorem readFull_column_names_mutation (exp : ExperimentM) (st : QueryState)
    (xn : XNameArg) (upi : Bool) (xl : Option (List XNameArg))
    (v ob : Option (Option (List String))) :
    readFull exp st xn upi (some ⟨none, v⟩) xl =
      readFull exp st xn upi (some ⟨some none, v⟩) xl ∧
    readFull exp st xn upi (some ⟨ob, none⟩) xl =
      readFull exp st xn upi (some ⟨ob, some none⟩) xl ∧
    readFull exp st xn upi none xl =
      readFull exp st xn upi (some ⟨some none, some none⟩) xl ∧
    normalizeColumnNames (some ⟨none, v⟩) = ⟨some none, some (v.getD none)⟩ ∧
    normalizeColumnNames (some ⟨ob, none⟩) = ⟨some (ob.getD none), some none⟩ ∧
    (∀ (cn : Option AxisColumnNames) (out : ReadOut),
        readFull exp st xn upi cn xl = .ok out →
        out.column_names = normalizeColumnNames cn) := by
  refine ⟨rfl, rfl, rfl, rfl, rfl, ?_⟩
  intro cn out hok
  unfold readFull at hok
  dsimp only at hok
  cases hv : validateXNames exp.xlayers (xn :: xl.getD []) with
  | error e =>
      rw [hv] at hok
      simp [bind, Except.bind] at hok
  | ok u =>
      rw [hv] at hok
      cases u
      simp only [bind, Except.bind] at hok
      cases hro : readAxisDataframeM exp st .obs
          ((normalizeColumnNames cn).obs.getD none) with
      | error e =>
          rw [hro] at hok
          simp at hok
      | ok p =>
          rw [hro] at hok
          obtain ⟨st1, obs_table⟩ := p
          dsimp only at hok
          cases hrv : readAxisDataframeM exp st1 .var
              ((normalizeColumnNames cn).var.getD none) with
          | error e =>
              rw [hrv] at hok
              simp at hok
          | ok q =>
              rw [hrv] at hok
              obtain ⟨st2, var_table⟩ := q
              simp only [Except.ok.injEq] at hok
              rw [← hok]

/-- Witness for C10: a mapping carrying only a var entry is read identically
to one that also maps obs to `None`, and the result records the insertion of
the missing obs key into the mapping (obs now maps to `None`). -/
theorem readFull_column_names_mutation_witness :
    readFull exExperiment ⟨none, none⟩ (.str "data") false
        (some ⟨none, some (some ["soma_joinid"])⟩) none =
      readFull exExperiment ⟨none, none⟩ (.str "data") false
        (some ⟨some none, some (some ["soma_joinid"])⟩) none ∧
    (⟨⟨some [10, 20, 30], some [1, 2]⟩, ⟨some none, some (some ["soma_joinid"])⟩,
      ⟨⟨[("soma_joinid", [10, 20, 30]), ("tissue", [1, 2, 3])]⟩,
       ⟨[("soma_joinid", [1, 2])]⟩,
       ⟨[("soma_dim_0", [10, 20]), ("soma_dim_1", [1, 2]), ("soma_data", [5, 7])]⟩,
       none⟩⟩ : ReadOut).column_names =
      normalizeColumnNames (some ⟨none, some (some ["soma_joinid"])⟩) :=
  ⟨(readFull_column_names_mutation exExperiment ⟨none, none⟩ (.str "data") false
      none (some (some ["soma_joinid"])) none).1,
   (readFull_column_names_mutation exExperiment ⟨none, none⟩ (.str "data") false
      none (some (some ["soma_joinid"])) none).2.2.2.2.2
      (some ⟨none, some (some ["soma_joinid"])⟩)
      ⟨⟨some [10, 20, 30], some [1, 2]⟩, ⟨some none, some (some ["soma_joinid"])⟩,
       ⟨⟨[("soma_joinid", [10, 20, 30]), ("tissue", [1, 2, 3])]⟩,
        ⟨[("soma_joinid", [1, 2])]⟩,
        ⟨[("soma_dim_0", [10, 20]), ("soma_dim_1", [1, 2]), ("soma_data", [5, 7])]⟩,
        none⟩⟩ rfl⟩

/-- C3: at the concrete query read with positional indexing, the matrix
table's identifier columns are indeed rewritten into dense positions (the
position of each identifier in the cached obs/var joinid sequences, here
[10,20,30] and [1,2], giving rows (0,0,5) and (1,1,7) as in the spec's
scenario) and renamed to the positional-axis names `_dim_0` / `_dim_1`, but
the `soma_joinid` column is NOT dropped from the returned obs and var axis
tables, although both the claim and the docstring of
`_rewrite_X_for_positional_indexing` state it is dropped: the rewrite
receives only the X tables and `read` returns the axis tables unchanged. -/
theorem readFull_positional_keeps_soma_joinid :
    readFull exExperiment ⟨none, none⟩ (.str "data") true none none =
      .ok ⟨⟨some [10, 20, 30], some [1, 2]⟩, ⟨some none, some none⟩,
           ⟨⟨[("soma_joinid", [10, 20, 30]), ("tissue", [1, 2, 3])]⟩,
            ⟨[("soma_joinid", [1, 2])]⟩,
            ⟨[("_dim_0", [0, 1]), ("_dim_1", [0, 1]), ("soma_data", [5, 7])]⟩,
            none⟩⟩ ∧
    "soma_joinid" ∈
      (⟨[("soma_joinid", [10, 20, 30]), ("tissue", [1, 2, 3])]⟩ : Table).names ∧
    "soma_joinid" ∈ (⟨[("soma_joinid", [1, 2])]⟩ : Table).names ∧
    "soma_joinid" ∉
      (⟨[("_dim_0", [0, 1]), ("_dim_1", [0, 1]), ("soma_data", [5, 7])]⟩ : Table).names :=
  ⟨rfl, by decide, by decide, by decide⟩

theorem lookup_const_nil_getD (cs : List String) (m : String) :
    (((cs.map (fun n => (n, ([] : List Int)))).lookup m).getD []) = [] := by
  rw [lookup_map_fn]
  split <;> rfl

/-- C1 counterexample: with an empty obs identifier set, `_fetchX` yields
exactly one chunk (the empty table built from the matrix schema), not zero
chunks as claimed. -/
theorem fetchX_empty_obs_yields_one_chunk :
    fetchX [] [1] exX = [Table.fromPylistEmpty exX.schemaNames] ∧
    (fetchX [] [1] exX).length = 1 ∧ (fetchX [] [1] exX).length ≠ 0 :=
  ⟨rfl, rfl, by decide⟩

/-- C1 (amended): for every query in which either axis identifier set is
empty, the matrix read `_fetchX` yields exactly one chunk, an empty
(zero-row) table over the matrix schema, and never an error; and the
full-read entry point `read` succeeds, returning an empty (zero-row) matrix
table. -/
theorem read_empty_axis_succeeds (exp : ExperimentM) (X_name : XNameArg)
    (obs var : List Int) (X : SparseNDArray)
    (hv : validateXNames exp.xlayers [X_name] = .ok ())
    (hof : exp.obsDF.readFails = false) (hvf : exp.varDF.readFails = false)
    (hrows : exp.obsDF.rows = []) :
    (obs = [] ∨ var = [] →
        fetchX obs var X = [Table.fromPylistEmpty X.schemaNames] ∧
        (Table.concatAll (fetchX obs var X)).numRows = 0) ∧
    (∃ out, readFull exp ⟨none, none⟩ X_name false none none = .ok out ∧
        out.result.X.numRows = 0) := by
  have hcolv : ∀ n, exp.obsDF.colValues n = [] :=
    fun n => colValues_of_rows_nil exp.obsDF hrows n
  constructor
  · intro h
    have hcond : obs.length = 0 ∨ var.length = 0 := by
      cases h with
      | inl h => exact Or.inl (by simp [h])
      | inr h => exact Or.inr (by simp [h])
    have hfx : fetchX obs var X = [Table.fromPylistEmpty X.schemaNames] := by
      unfold fetchX
      rw [if_pos hcond]
    refine ⟨hfx, ?_⟩
    rw [hfx]
    simp [Table.concatAll, numRows_fromPylistEmpty]
  · have hobs : readAxisDataframeM exp ⟨none, none⟩ .obs none =
        .ok (⟨some [], none⟩, ⟨exp.obsDF.colNames.map (fun n => (n, ([] : List Int)))⟩) := by
      unfold readAxisDataframeM
      rw [readAxisDataframe_eq]
      have hra : exp.obsDF.read_all (axisQueryColumns true none) =
          .ok ⟨exp.obsDF.colNames.map (fun n => (n, ([] : List Int)))⟩ := by
        simp only [AxisDF.read_all, hof, Bool.false_eq_true, if_false, axisQueryColumns,
          Option.getD_none]
        congr 2
        exact List.map_congr_left (fun n _ => by rw [hcolv n])
      have hax : exp.axisDF .obs = exp.obsDF := rfl
      have hcn : ((⟨none, none⟩ : QueryState).getCache .obs) = none := rfl
      rw [hcn, hax]
      simp only [Option.isNone_none]
      rw [hra]
      have hcol : ((⟨exp.obsDF.colNames.map (fun n => (n, ([] : List Int)))⟩ : Table).col
          "soma_joinid").getD [] = [] := by
        unfold Table.col
        exact lookup_const_nil_getD exp.obsDF.colNames "soma_joinid"
      simp only [if_true, hcol]
      rfl
    have hvar : readAxisDataframeM exp ⟨some [], none⟩ .var none =
        .ok (⟨some [],
              some (((⟨exp.varDF.colNames.map (fun n => (n, exp.varDF.colValues n))⟩ :
                Table).col "soma_joinid").getD [])⟩,
             ⟨exp.varDF.colNames.map (fun n => (n, exp.varDF.colValues n))⟩) := by
      unfold readAxisDataframeM
      rw [readAxisDataframe_eq]
      have hra : exp.varDF.read_all (axisQueryColumns true none) =
          .ok ⟨exp.varDF.colNames.map (fun n => (n, exp.varDF.colValues n))⟩ := by
        simp only [AxisDF.read_all, hvf, Bool.false_eq_true, if_false, axisQueryColumns,
          Option.getD_none]
      have hax : exp.axisDF .var = exp.varDF := rfl
      have hcn : ((⟨some [], none⟩ : QueryState).getCache .var) = none := rfl
      rw [hcn, hax]
      simp only [Option.isNone_none]
      rw [hra]
      rfl
    unfold readFull
    dsimp only [Option.getD]
    rw [hv]
    simp only [bind, Except.bind]
    rw [show normalizeColumnNames none = ⟨some none, some none⟩ from rfl]
    dsimp only [Option.getD]
    rw [hobs]
    dsimp only
    rw [hvar]
    dsimp only
    refine ⟨_, rfl, ?_⟩
    have hfx0 : ∀ (vs : List Int) (Y : SparseNDArray),
        fetchX [] vs Y = [Table.fromPylistEmpty Y.schemaNames] := by
      intro vs Y
      unfold fetchX
      simp
    dsimp only
    simp only [QueryState.getCache, Option.getD_some, List.map_cons, List.map_nil,
      Bool.false_eq_true, if_false, hfx0, List.lookup, beq_self_eq_true]
    simp [Table.concatAll, numRows_fromPylistEmpty]

/-- Witness for C1 at the concrete experiment whose obs filter selects zero
rows: the full read succeeds, returning a zero-row matrix table. -/
theorem read_empty_axis_succeeds_witness :
    validateXNames exExperimentEmptyObs.xlayers [.str "data"] = .ok () ∧
    exExperimentEmptyObs.obsDF.rows = [] ∧
    (([] : List Int) = [] ∨ ([1] : List Int) = [] →
        fetchX [] [1] exX = [Table.fromPylistEmpty exX.schemaNames] ∧
        (Table.concatAll (fetchX [] [1] exX)).numRows = 0) ∧
    (∃ out, readFull exExperimentEmptyObs ⟨none, none⟩ (.str "data") false none none =
        .ok out ∧ out.result.X.numRows = 0) :=
  ⟨rfl, rfl,
   (read_empty_axis_succeeds exExperimentEmptyObs (.str "data") [] [1] exX
      rfl rfl rfl rfl).1,
   (read_empty_axis_succeeds exExperimentEmptyObs (.str "data") [] [1] exX
      rfl rfl rfl rfl).2⟩
